import Mathlib

/-!
Shallow embedding of `src/src/App.tsx` (gitblast/react-image-reader).

The component is a React app around tesseract.js:

* `useWorker` holds `progress` (integer percent) and `error`; the worker is
  created with a `logger` callback that sets
  `progress := Math.round(m.progress * 100)` exactly when
  `m.status === "recognizing text"`, and an `errorHandler` callback that sets
  `error := e`.  An effect runs the bootstrap
  `load(); loadLanguage(lang); initialize(lang)` whose rejection is unhandled
  (no state change in the component).
* `useObjectURL` binds the current image to an object URL: the effect creates
  a URL when the image is non-null and its React cleanup (run before the next
  effect invocation) revokes it; a null image just clears the stored URL.
* `App` has `ocr` (the committed result page), `image`, `loading`.  An effect
  keyed on `image` runs `read()`: `setLoading(true)`, then
  `await worker.recognize(image)`; on success `clearError(); setOcr(data)`;
  a rejection is swallowed by an empty `catch`; finally `setLoading(false)`.
  There is no session token and no "still current" check anywhere.

The embedding is a transition system: `Event` is the alphabet of environment
events (user submissions, logger/errorHandler callbacks, promise
resolutions), `appStep` is the component's reaction to one event, and traces
are folded with `appRun`.  Promise semantics: each submission enqueues a
pending recognition identified by a fresh session id; a pending id resolves
at most once (`appStep` ignores resolutions of ids that are not pending).
tesseract logger messages carry a job id; the source callback reads only
`m.status` and `m.progress`, so `appStep` ignores the id.
-/

/-- An opaque image blob (its identity is all the component ever uses). -/
abbrev ImgFile := String

/-- An opaque JavaScript error value. -/
abbrev JsError := String

/-- The recognition result page returned by the engine (the fields the
component reads: `words.length`, `lines.length`, `confidence`, `text`). -/
structure Page where
  text : String
  words : List String
  lines : List String
  confidence : ℚ
deriving DecidableEq

/-- JavaScript's `Math.round` on a rational: floor of `q + 1/2`
(half-up rounding, matching `Math.round` on all inputs).  `Rat.floor` is the
computable floor, equal to `⌊⌋` by `jsRound_eq_floor` below. -/
def jsRound (q : ℚ) : ℤ := (q + 1/2).floor

/-- The computable `Rat.floor` used in `jsRound` agrees with Mathlib's `⌊⌋`. -/
theorem jsRound_eq_floor (q : ℚ) : jsRound q = ⌊q + 1/2⌋ := by
  rw [jsRound, Rat.floor_def', Rat.floor_def]

/-- Environment events driving the component.  `logger` carries the job id a
tesseract message has (the source reads only status and fraction).
`resolveOk`/`resolveErr` are the resolution of the `recognize` promise of the
session with the given id. -/
inductive Event where
  | bootstrapDone : Event
  | bootstrapReject : Event
  | submit (img : ImgFile) : Event
  | logger (jobId : Nat) (status : String) (fraction : ℚ) : Event
  | errorEvent (e : JsError) : Event
  | resolveOk (sid : Nat) (p : Page) : Event
  | resolveErr (sid : Nat) : Event
deriving DecidableEq

/-- The component's shared state: the `useState` cells of `useWorker`
(`progress`, `error`) and `App` (`ocr`, `image`, `loading`), plus bookkeeping
for the in-flight `recognize` promises (`pending`, `nextSid`), a counter of
`worker.recognize` invocations, and a ghost flag recording that the bootstrap
rejected (the source leaves that rejection unhandled). -/
structure AppState where
  progress : ℤ
  error : Option JsError
  ocr : Option Page
  image : Option ImgFile
  loading : Bool
  pending : List Nat
  nextSid : Nat
  recognizeCalls : Nat
  bootFailed : Bool
deriving DecidableEq

/-- The initial state: `useState(0)`, `useState<Error|null>(null)`,
`useState<Page|null>(null)`, `useState<File|null>(null)`, `useState(false)`. -/
def initState : AppState :=
  { progress := 0, error := none, ocr := none, image := none, loading := false,
    pending := [], nextSid := 0, recognizeCalls := 0, bootFailed := false }

/-- One reaction of the component to an environment event, line by line from
`App.tsx`:

* `bootstrapDone` / `bootstrapReject`: the `init()` promise in `useWorker`
  settles; neither path touches any state cell (the rejection is unhandled),
  so only the ghost flag moves.
* `submit img`: `onImageChange` calls `setImage(file)`; the effect keyed on
  `image` sees a non-null image and runs `read()`, which synchronously does
  `setLoading(true)` and invokes `worker.recognize(image)` (a fresh pending
  session).  Nothing clears `error`, `ocr` or `progress` here.
* `logger`: `if (m?.status === "recognizing text") setProgress(Math.round(m.progress * 100))`.
* `errorEvent e`: `errorHandler: (e) => setError(e)`.
* `resolveOk sid p`: the `await worker.recognize(image)` of session `sid`
  resolves; `read()` continues with `clearError(); setOcr(data); setLoading(false)`
  unconditionally — there is no check that `sid` is still the latest session.
* `resolveErr sid`: the same `await` rejects; the empty `catch {}` swallows
  the error and only `setLoading(false)` runs. -/
def appStep (s : AppState) : Event → AppState
  | .bootstrapDone => s
  | .bootstrapReject => { s with bootFailed := true }
  | .submit img =>
      { s with image := some img, loading := true,
               pending := s.pending ++ [s.nextSid], nextSid := s.nextSid + 1,
               recognizeCalls := s.recognizeCalls + 1 }
  | .logger _ status fraction =>
      if status = "recognizing text" then
        { s with progress := jsRound (fraction * 100) }
      else s
  | .errorEvent e => { s with error := some e }
  | .resolveOk sid p =>
      if sid ∈ s.pending then
        { s with pending := s.pending.erase sid, error := none, ocr := some p,
                 loading := false }
      else s
  | .resolveErr sid =>
      if sid ∈ s.pending then
        { s with pending := s.pending.erase sid, loading := false }
      else s

/-- Fold a trace of events from a given state. -/
def appRun (s : AppState) (evs : List Event) : AppState := evs.foldl appStep s

/-- Fold a trace of events from the initial state. -/
def appRunFromInit (evs : List Event) : AppState := appRun initState evs

/-!
The `useObjectURL` hook, as its own transition system.  Its input is the
successive values of the `img` prop (an `Option ImgFile` per change); React
runs the previous effect's cleanup before the next effect body.  `live` is
the multiset of created-but-not-revoked object URLs (URLs are numbered by a
counter), `current` is the URL whose revocation the pending cleanup holds
(`none` when the previous image was null, whose branch registers no cleanup).
-/

structure BinderState where
  live : List Nat
  current : Option Nat
  nextUrl : Nat
deriving DecidableEq

/-- One image change seen by `useObjectURL`: first the previous effect's
cleanup runs (`return () => URL.revokeObjectURL(url)` — only registered when
the previous image was non-null), then the new effect body runs
(`URL.createObjectURL(img)` when non-null, else `setObjUrl(null)`). -/
def bindStep (s : BinderState) (img : Option ImgFile) : BinderState :=
  let cleaned : List Nat :=
    match s.current with
    | some u => s.live.erase u
    | none => s.live
  match img with
  | some _ => { live := cleaned ++ [s.nextUrl], current := some s.nextUrl,
                nextUrl := s.nextUrl + 1 }
  | none => { live := cleaned, current := none, nextUrl := s.nextUrl }

/-- Run `useObjectURL` over a whole sequence of image changes, starting from
the mount state (no URL created yet). -/
def bindRun (imgs : List (Option ImgFile)) : BinderState :=
  imgs.foldl bindStep { live := [], current := none, nextUrl := 0 }

/-!
Helper lemmas.
-/

/-- Any event that is not a logger event with status `"recognizing text"`
leaves `progress` unchanged: the logger callback is the only writer of
`progress` in the component. -/
theorem appStep_progress_eq (s : AppState) (e : Event)
    (h : ∀ j f, e ≠ .logger j "recognizing text" f) :
    (appStep s e).progress = s.progress := by
  cases e with
  | bootstrapDone => rfl
  | bootstrapReject => rfl
  | submit img => rfl
  | logger j status f =>
      have hst : status ≠ "recognizing text" := by
        intro hc
        exact h j f (by rw [hc])
      simp [appStep, hst]
  | errorEvent e => rfl
  | resolveOk sid p =>
      simp only [appStep]
      split <;> rfl
  | resolveErr sid =>
      simp only [appStep]
      split <;> rfl

/-- A trace containing no recognizing-text logger event leaves `progress`
unchanged. -/
theorem appRun_progress_eq (evs : List Event) (s : AppState)
    (h : ∀ j f, Event.logger j "recognizing text" f ∉ evs) :
    (appRun s evs).progress = s.progress := by
  induction evs generalizing s with
  | nil => rfl
  | cons e rest ih =>
      have he : ∀ j f, e ≠ Event.logger j "recognizing text" f := by
        intro j f hc
        exact h j f (by rw [hc]; exact List.mem_cons_self _ _)
      have hrest : ∀ j f, Event.logger j "recognizing text" f ∉ rest := by
        intro j f hc
        exact h j f (List.mem_cons_of_mem _ hc)
      calc (appRun s (e :: rest)).progress
          = (appRun (appStep s e) rest).progress := rfl
        _ = (appStep s e).progress := ih (appStep s e) hrest
        _ = s.progress := appStep_progress_eq s e he

/-- Invariant of `useObjectURL`: the pending cleanup (`current`) holds the one
live URL, and there is no live URL when no cleanup is registered. -/
def BinderInv (s : BinderState) : Prop :=
  (s.current = none ∧ s.live = []) ∨ ∃ u, s.current = some u ∧ s.live = [u]

/-- One image change preserves the `useObjectURL` invariant: the cleanup
revokes the previous URL before the effect body creates the next. -/
theorem bindStep_inv (s : BinderState) (img : Option ImgFile) (h : BinderInv s) :
    BinderInv (bindStep s img) := by
  rcases h with ⟨h1, h2⟩ | ⟨u, h1, h2⟩ <;> cases img <;>
    simp [bindStep, h1, h2, BinderInv]

/-- The `useObjectURL` invariant holds after any sequence of image changes. -/
theorem bindRun_inv (imgs : List (Option ImgFile)) : BinderInv (bindRun imgs) := by
  have key : ∀ t, BinderInv t → BinderInv (imgs.foldl bindStep t) := by
    induction imgs with
    | nil => exact fun t ht => ht
    | cons a rest ih => exact fun t ht => ih (bindStep t a) (bindStep_inv t a ht)
  exact key { live := [], current := none, nextUrl := 0 } (Or.inl ⟨rfl, rfl⟩)

/-!
Claim theorems.
-/

/-- C6 (confirmed): for every raw status event with a fraction in `[0, 1]`,
the logger callback sets `progress := Math.round(fraction * 100)` exactly when
the status is `"recognizing text"`, and leaves the whole state (in particular
`progress`) unchanged for every other status. -/
theorem c6_progress_normalizer (s : AppState) (jobId : Nat) (status : String)
    (fraction : ℚ) (h0 : 0 ≤ fraction) (h1 : fraction ≤ 1) :
    (status = "recognizing text" →
      (appStep s (.logger jobId status fraction)).progress = jsRound (fraction * 100)) ∧
    (status ≠ "recognizing text" → appStep s (.logger jobId status fraction) = s) := by
  constructor <;> intro h <;> simp [appStep, h]

/-- Witness for C6 at status `"recognizing text"` with fraction `1/2`, and at
the non-recognizing status `"loading tesseract core"`. -/
theorem c6_witness :
    ((0 : ℚ) ≤ 1/2 ∧ (1/2 : ℚ) ≤ 1) ∧
    (appStep initState (.logger 0 "recognizing text" (1/2))).progress =
      jsRound ((1/2) * 100) ∧
    appStep initState (.logger 0 "loading tesseract core" (1/2)) = initState :=
  ⟨⟨by norm_num, by norm_num⟩,
   (c6_progress_normalizer initState 0 "recognizing text" (1/2)
      (by norm_num) (by norm_num)).1 rfl,
   (c6_progress_normalizer initState 0 "loading tesseract core" (1/2)
      (by norm_num) (by norm_num)).2 (by simp)⟩

/-- C8 (confirmed): across any sequence of image changes (including changes
to null), `useObjectURL` keeps at most one object URL alive: the effect
cleanup revokes the previous URL before the next one is created, so the live
handle count is always 0 or 1, never greater. -/
theorem c8_single_live_handle (imgs : List (Option ImgFile)) :
    (bindRun imgs).live.length = 0 ∨ (bindRun imgs).live.length = 1 := by
  rcases bindRun_inv imgs with ⟨_, h⟩ | ⟨u, _, h⟩ <;> simp [h]

/-- C1 counterexample: after `submit "A"` then `submit "B"`, session 0 is
still unresolved (`pending = [0, 1]`) and superseded by session 1, with
`ocr = none` and `loading = true`; when session 0's recognition then resolves,
its outcome IS committed: `ocr` becomes session 0's page and `loading` flips
to `false` while session 1 is still in flight (`pending = [1]`), so a
superseded session's resolution does alter the shared state. -/
theorem c1_counterexample :
    ((appRunFromInit [.submit "A", .submit "B"]).pending = [0, 1] ∧
      (appRunFromInit [.submit "A", .submit "B"]).ocr = none ∧
      (appRunFromInit [.submit "A", .submit "B"]).loading = true) ∧
    ((appRunFromInit [.submit "A", .submit "B",
        .resolveOk 0 ⟨"textA", ["w"], ["l"], 50⟩]).ocr =
          some ⟨"textA", ["w"], ["l"], 50⟩ ∧
      (appRunFromInit [.submit "A", .submit "B",
        .resolveOk 0 ⟨"textA", ["w"], ["l"], 50⟩]).loading = false ∧
      (appRunFromInit [.submit "A", .submit "B",
        .resolveOk 0 ⟨"textA", ["w"], ["l"], 50⟩]).pending = [1]) :=
  ⟨⟨rfl, rfl, rfl⟩, rfl, rfl, rfl⟩

/-- C1 (corrected): the component has no supersede check, so the resolution
of ANY pending session — superseded or not — is committed: a successful
resolution sets `ocr` to its page, clears `error` and clears `loading`, and a
failed resolution clears `loading`, regardless of newer in-flight sessions. -/
theorem c1_resolution_always_commits (s : AppState) (sid : Nat) (p : Page)
    (h : sid ∈ s.pending) :
    appStep s (.resolveOk sid p) =
      { s with pending := s.pending.erase sid, error := none, ocr := some p,
               loading := false } ∧
    appStep s (.resolveErr sid) =
      { s with pending := s.pending.erase sid, loading := false } := by
  constructor <;> simp [appStep, h]

/-- Witness for C1: a state with two pending sessions where the older,
superseded session 0 resolves and is committed. -/
theorem c1_witness :
    0 ∈ [0, 1] ∧
    (appStep { initState with pending := [0, 1], nextSid := 2, loading := true }
        (.resolveOk 0 ⟨"t", [], [], 10⟩)).ocr = some ⟨"t", [], [], 10⟩ ∧
    (appStep { initState with pending := [0, 1], nextSid := 2, loading := true }
        (.resolveErr 0)).loading = false := by
  refine ⟨by decide, ?_, ?_⟩
  · rw [(c1_resolution_always_commits
      { initState with pending := [0, 1], nextSid := 2, loading := true }
      0 ⟨"t", [], [], 10⟩ (by decide)).1]
  · rw [(c1_resolution_always_commits
      { initState with pending := [0, 1], nextSid := 2, loading := true }
      0 ⟨"t", [], [], 10⟩ (by decide)).2]

/-- C2 counterexample: the bootstrap rejects, then an image is submitted; a
recognition call IS attempted (`recognizeCalls = 1`), and when that call
rejects the committed state has `error = none`, not an `InitializationError`. -/
theorem c2_counterexample :
    (appRunFromInit [.bootstrapReject, .submit "A"]).recognizeCalls = 1 ∧
    (appRunFromInit [.bootstrapReject, .submit "A", .resolveErr 0]).loading = false ∧
    (appRunFromInit [.bootstrapReject, .submit "A", .resolveErr 0]).error = none ∧
    (appRunFromInit [.bootstrapReject, .submit "A", .resolveErr 0]).ocr = none :=
  ⟨rfl, rfl, rfl, rfl⟩

/-- C2 (corrected): a bootstrap rejection changes nothing in the component
(the `init()` rejection is unhandled), so any subsequent submission still
attempts a recognition call; when that call rejects, the committed state is
`loading = false` with `error` and `result` unchanged (`none` on a first
submission), not an `InitializationError`. -/
theorem c2_bootstrap_reject_behavior (img : ImgFile) :
    appRunFromInit [.bootstrapReject] = { initState with bootFailed := true } ∧
    (appRunFromInit [.bootstrapReject, .submit img]).recognizeCalls = 1 ∧
    (appRunFromInit [.bootstrapReject, .submit img, .resolveErr 0]).loading = false ∧
    (appRunFromInit [.bootstrapReject, .submit img, .resolveErr 0]).error = none ∧
    (appRunFromInit [.bootstrapReject, .submit img, .resolveErr 0]).ocr = none :=
  ⟨rfl, rfl, rfl, rfl, rfl⟩

/-- C3 counterexample: a first submission whose recognition call rejects
commits `loading = false` with `error = none` — not a `RecognitionError` —
because the empty `catch {}` swallows the rejection. -/
theorem c3_counterexample :
    (appRunFromInit [.submit "A", .resolveErr 0]).loading = false ∧
    (appRunFromInit [.submit "A", .resolveErr 0]).error = none ∧
    (appRunFromInit [.submit "A", .resolveErr 0]).ocr = none :=
  ⟨rfl, rfl, rfl⟩

/-- C3 (corrected): a rejection of the recognition call is swallowed by the
empty `catch {}`: only `loading` is cleared, while `error`, `ocr` and
`progress` keep their previous values (so `error` stays `null` on a first
submission; a user-visible error can arise only from the separately fired
asynchronous `errorHandler`). -/
theorem c3_rejection_swallowed (s : AppState) (sid : Nat) (h : sid ∈ s.pending) :
    (appStep s (.resolveErr sid)).loading = false ∧
    (appStep s (.resolveErr sid)).error = s.error ∧
    (appStep s (.resolveErr sid)).ocr = s.ocr ∧
    (appStep s (.resolveErr sid)).progress = s.progress := by
  refine ⟨?_, ?_, ?_, ?_⟩ <;> simp [appStep, h]

/-- State for the C3 witness: one pending session, loading, with a page
committed by an earlier submission. -/
def c3State : AppState :=
  { initState with pending := [0], loading := true, ocr := some ⟨"old", [], [], 1⟩ }

/-- Witness for C3: the single pending session 0 rejects from a state with a
previously committed page, and `error`/`ocr`/`progress` are untouched. -/
theorem c3_witness :
    0 ∈ c3State.pending ∧
    (appStep c3State (.resolveErr 0)).loading = false ∧
    (appStep c3State (.resolveErr 0)).error = none ∧
    (appStep c3State (.resolveErr 0)).ocr = some ⟨"old", [], [], 1⟩ :=
  ⟨by decide,
   (c3_rejection_swallowed c3State 0 (by decide)).1,
   (c3_rejection_swallowed c3State 0 (by decide)).2.1,
   (c3_rejection_swallowed c3State 0 (by decide)).2.2.1⟩

/-- C4 counterexample: submit "A", then submit "B" while A is unresolved;
when the superseded session 0 rejects, `loading` flips to `false` even though
session 1 is still in flight (`pending = [1]`), so `loading` is false while
the current session's outcome is not yet committed. -/
theorem c4_counterexample :
    (appRunFromInit [.submit "A", .submit "B"]).loading = true ∧
    (appRunFromInit [.submit "A", .submit "B", .resolveErr 0]).loading = false ∧
    (appRunFromInit [.submit "A", .submit "B", .resolveErr 0]).pending = [1] :=
  ⟨rfl, rfl, rfl⟩

/-- C4 (corrected): `loading` is set `true` at each submission and set
`false` by the resolution of ANY pending session, including a superseded one
— there is no current-session guard — so `loading` can be `false` while a
newer session is still running; it is still never left `true` once every
pending session has resolved, since each submission's `read()` always ends in
`setLoading(false)`. -/
theorem c4_loading_behavior (s : AppState) (img : ImgFile) (sid : Nat)
    (p : Page) (h : sid ∈ s.pending) :
    (appStep s (.submit img)).loading = true ∧
    (appStep s (.resolveOk sid p)).loading = false ∧
    (appStep s (.resolveErr sid)).loading = false := by
  refine ⟨rfl, ?_, ?_⟩ <;> simp [appStep, h]

/-- State for the C4 witness: two pending sessions, the newer one current. -/
def c4State : AppState :=
  { initState with pending := [0, 1], nextSid := 2, loading := true }

/-- Witness for C4 at a state with a superseded pending session 0 and a
running session 1. -/
theorem c4_witness :
    0 ∈ c4State.pending ∧
    (appStep c4State (.submit "C")).loading = true ∧
    (appStep c4State (.resolveOk 0 ⟨"t", [], [], 10⟩)).loading = false ∧
    (appStep c4State (.resolveErr 0)).loading = false :=
  ⟨by decide,
   (c4_loading_behavior c4State "C" 0 ⟨"t", [], [], 10⟩ (by decide)).1,
   (c4_loading_behavior c4State "C" 0 ⟨"t", [], [], 10⟩ (by decide)).2.1,
   (c4_loading_behavior c4State "C" 0 ⟨"t", [], [], 10⟩ (by decide)).2.2⟩

/-- C5 counterexample: a submission succeeds and its page is committed; the
asynchronous `errorHandler` then fires (an engine fault).  In the resulting
quiescent, non-superseded state (`pending = []`, `loading = false`) both
`error` and `ocr` are non-null simultaneously. -/
theorem c5_counterexample :
    (appRunFromInit [.submit "A", .resolveOk 0 ⟨"t", ["w"], ["l"], 80⟩,
        .errorEvent "engine fault"]).ocr = some ⟨"t", ["w"], ["l"], 80⟩ ∧
    (appRunFromInit [.submit "A", .resolveOk 0 ⟨"t", ["w"], ["l"], 80⟩,
        .errorEvent "engine fault"]).error = some "engine fault" ∧
    (appRunFromInit [.submit "A", .resolveOk 0 ⟨"t", ["w"], ["l"], 80⟩,
        .errorEvent "engine fault"]).pending = [] ∧
    (appRunFromInit [.submit "A", .resolveOk 0 ⟨"t", ["w"], ["l"], 80⟩,
        .errorEvent "engine fault"]).loading = false :=
  ⟨rfl, rfl, rfl, rfl⟩

/-- C5 (corrected): committing a result does clear the error
(`clearError(); setOcr(data)`), but committing an error via the asynchronous
`errorHandler` (`setError(e)`) leaves the result in place, so `error != null`
and `result != null` are NOT mutually exclusive in committed state. -/
theorem c5_commit_effects (s : AppState) (sid : Nat) (p : Page) (e : JsError)
    (h : sid ∈ s.pending) :
    (appStep s (.resolveOk sid p)).error = none ∧
    (appStep s (.resolveOk sid p)).ocr = some p ∧
    (appStep s (.errorEvent e)).error = some e ∧
    (appStep s (.errorEvent e)).ocr = s.ocr := by
  refine ⟨?_, ?_, rfl, rfl⟩ <;> simp [appStep, h]

/-- State for the C5 witness: one pending session and a previously committed
page and error. -/
def c5State : AppState :=
  { initState with pending := [0], loading := true, error := some "old error" }

/-- Witness for C5: success clears the error; an error event leaves `ocr`. -/
theorem c5_witness :
    0 ∈ c5State.pending ∧
    (appStep c5State (.resolveOk 0 ⟨"t", [], [], 10⟩)).error = none ∧
    (appStep c5State (.resolveOk 0 ⟨"t", [], [], 10⟩)).ocr = some ⟨"t", [], [], 10⟩ ∧
    (appStep c5State (.errorEvent "fault")).error = some "fault" ∧
    (appStep c5State (.errorEvent "fault")).ocr = none :=
  ⟨by decide,
   (c5_commit_effects c5State 0 ⟨"t", [], [], 10⟩ "fault" (by decide)).1,
   (c5_commit_effects c5State 0 ⟨"t", [], [], 10⟩ "fault" (by decide)).2.1,
   (c5_commit_effects c5State 0 ⟨"t", [], [], 10⟩ "fault" (by decide)).2.2.1,
   (c5_commit_effects c5State 0 ⟨"t", [], [], 10⟩ "fault" (by decide)).2.2.2⟩

/-- C7 counterexample: `error` is non-null when image "B" is submitted; at
the start of B's session (`loading = true`, session 1 pending) the error is
still the old one — submission does not clear it. -/
theorem c7_counterexample :
    (appRunFromInit [.submit "A", .errorEvent "bad image"]).error =
      some "bad image" ∧
    (appRunFromInit [.submit "A", .errorEvent "bad image", .submit "B"]).error =
      some "bad image" ∧
    (appRunFromInit [.submit "A", .errorEvent "bad image", .submit "B"]).loading =
      true ∧
    (appRunFromInit [.submit "A", .errorEvent "bad image", .submit "B"]).pending =
      [0, 1] :=
  ⟨rfl, rfl, rfl, rfl⟩

/-- C7 (corrected): submitting a new image leaves the previous `error` in
place at the start of the new session (`read()` starts with only
`setLoading(true)`); the error is cleared only when a recognition call later
resolves successfully (`clearError()` runs just before `setOcr`). -/
theorem c7_error_persists_until_success (s : AppState) (img : ImgFile)
    (sid : Nat) (p : Page) (h : sid ∈ s.pending) :
    (appStep s (.submit img)).error = s.error ∧
    (appStep s (.resolveOk sid p)).error = none := by
  refine ⟨rfl, ?_⟩
  simp [appStep, h]

/-- State for the C7 witness: an old error and one pending session. -/
def c7State : AppState :=
  { initState with pending := [0], loading := true, error := some "old error" }

/-- Witness for C7: submitting does not clear the error; success does. -/
theorem c7_witness :
    0 ∈ c7State.pending ∧
    (appStep c7State (.submit "B")).error = some "old error" ∧
    (appStep c7State (.resolveOk 0 ⟨"t", [], [], 10⟩)).error = none :=
  ⟨by decide,
   (c7_error_persists_until_success c7State "B" 0 ⟨"t", [], [], 10⟩ (by decide)).1,
   (c7_error_persists_until_success c7State "B" 0 ⟨"t", [], [], 10⟩ (by decide)).2⟩

/-- The event trace of the C9 scenario: the bootstrap completes, image "A" is
submitted (session 0), the engine streams its final recognizing-text event
with fraction 1, and session 0's recognition resolves successfully with page
`p`, with no later submission in between. -/
def c9Trace (p : Page) : List Event :=
  [.bootstrapDone, .submit "A", .logger 0 "recognizing text" 1, .resolveOk 0 p]

/-- C9 (confirmed): for a single submission whose bootstrap succeeds and
whose recognition succeeds with a page of confidence 92.5, 10 words and 2
lines (the engine having streamed its final recognizing-text event, fraction
1, before resolving), the committed state is `loading = false`,
`progress = 100`, `error = none` and `result` exactly the page the engine
returned, unchanged. -/
theorem c9_scenario (p : Page) (h1 : p.confidence = 92.5)
    (h2 : p.words.length = 10) (h3 : p.lines.length = 2) :
    (appRunFromInit (c9Trace p)).loading = false ∧
    (appRunFromInit (c9Trace p)).progress = 100 ∧
    (appRunFromInit (c9Trace p)).error = none ∧
    (appRunFromInit (c9Trace p)).ocr = some p ∧
    (appRunFromInit (c9Trace p)).ocr.map Page.confidence = some (92.5 : ℚ) ∧
    (appRunFromInit (c9Trace p)).ocr.map (fun q => q.words.length) = some 10 ∧
    (appRunFromInit (c9Trace p)).ocr.map (fun q => q.lines.length) = some 2 := by
  have hocr : (appRunFromInit (c9Trace p)).ocr = some p := by
    simp [c9Trace, appRunFromInit, appRun, appStep, initState]
  refine ⟨?_, ?_, ?_, hocr, ?_, ?_, ?_⟩
  · simp [c9Trace, appRunFromInit, appRun, appStep, initState]
  · simp [c9Trace, appRunFromInit, appRun, appStep, initState, jsRound_eq_floor]
    norm_num
  · simp [c9Trace, appRunFromInit, appRun, appStep, initState]
  · rw [hocr]
    simp [h1]
  · rw [hocr]
    simp [h2]
  · rw [hocr]
    simp [h3]

/-- The concrete page of the C9 witness: confidence 92.5, 10 words, 2 lines. -/
def c9Page : Page :=
  { text := "the quick brown fox jumps over the lazy dog again",
    words := ["the", "quick", "brown", "fox", "jumps", "over", "the", "lazy",
              "dog", "again"],
    lines := ["the quick brown fox jumps", "over the lazy dog again"],
    confidence := 92.5 }

/-- Witness for C9 at the concrete page `c9Page`. -/
theorem c9_witness :
    (c9Page.confidence = 92.5 ∧ c9Page.words.length = 10 ∧
      c9Page.lines.length = 2) ∧
    (appRunFromInit (c9Trace c9Page)).loading = false ∧
    (appRunFromInit (c9Trace c9Page)).progress = 100 ∧
    (appRunFromInit (c9Trace c9Page)).error = none ∧
    (appRunFromInit (c9Trace c9Page)).ocr = some c9Page :=
  ⟨⟨rfl, rfl, rfl⟩,
   (c9_scenario c9Page rfl rfl rfl).1,
   (c9_scenario c9Page rfl rfl rfl).2.1,
   (c9_scenario c9Page rfl rfl rfl).2.2.1,
   (c9_scenario c9Page rfl rfl rfl).2.2.2.1⟩

/-- C10 counterexample: session 0 reports progress 30; image "B" is then
submitted (session 1), and progress is still 30; but a recognizing-text event
of the superseded session 0 (job id 0, not the new session's id 1) then moves
progress to 90 — the previous value did not persist until the first
recognizing-text event of the NEW session, because the logger ignores the
session id of the event. -/
theorem c10_counterexample :
    (appRunFromInit [.submit "A", .logger 0 "recognizing text" (3/10),
        .submit "B"]).progress = 30 ∧
    (appRunFromInit [.submit "A", .logger 0 "recognizing text" (3/10),
        .submit "B", .logger 0 "recognizing text" (9/10)]).progress = 90 ∧
    (appRunFromInit [.submit "A", .logger 0 "recognizing text" (3/10),
        .submit "B", .logger 0 "recognizing text" (9/10)]).pending = [0, 1] := by
  refine ⟨?_, ?_, rfl⟩ <;>
    · simp [appRunFromInit, appRun, appStep, initState, jsRound_eq_floor]
      norm_num

/-- C10 (corrected): submitting a new image does not touch `progress` (the
`read()` effect never calls `setProgress`), so the previous session's value
persists unchanged until the next recognizing-text logger event from ANY
session arrives — the logger does not distinguish sessions, so a superseded
session's recognizing-text event also moves it. -/
theorem c10_progress_persists (s : AppState) (img : ImgFile) (evs : List Event)
    (h : ∀ j f, Event.logger j "recognizing text" f ∉ evs) :
    (appRun (appStep s (.submit img)) evs).progress = s.progress := by
  rw [appRun_progress_eq evs (appStep s (.submit img)) h]
  rfl

/-- Witness for C10: after submitting "B", an error event and a
non-recognizing logger event arrive, and progress is unchanged. -/
theorem c10_witness :
    (∀ j f, Event.logger j "recognizing text" f ∉
      [Event.errorEvent "x", Event.logger 1 "loading tesseract core" (1/2)]) ∧
    (appRun (appStep initState (.submit "B"))
      [Event.errorEvent "x", Event.logger 1 "loading tesseract core" (1/2)]).progress =
      initState.progress :=
  ⟨by simp, c10_progress_persists initState "B"
    [Event.errorEvent "x", Event.logger 1 "loading tesseract core" (1/2)] (by simp)⟩
